import Mathlib

/-!
Verification of the llmlora backend's job-orchestration and chat-serving core.

The definitions below are a shallow embedding of the Python sources:
  backend/api/routers/training.py   (cancel/delete/get job endpoints)
  backend/services/training_service.py  (start_training, _update_job_error,
                                         TrainerWithProgress._save_metrics_safely)
  backend/services/chat_service.py  (create_session, generate_response and the
                                     tiered generation pipeline, model cache)
  backend/models/schemas.py         (ChatSessionCreate.model_validate, enums)
  backend/models/database_models.py (record shapes)

The relational database is modelled as association lists keyed by integer ids;
external collaborators (HuggingFace models, Ollama HTTP service, Core ML) are
modelled as oracle parameters at exactly the call boundaries where the Python
code invokes them.  Floats that carry exact fractions (progress percentages,
losses) are modelled as rationals; timestamps as abstract naturals.
-/

/-- Job status enum from backend/models/schemas.py (TrainingStatus). -/
inductive TrainingStatus where
  | pending
  | running
  | completed
  | failed
  | cancelled
deriving Repr, DecidableEq

/-- Message role enum from backend/models/schemas.py (ChatMessageRole). -/
inductive ChatMessageRole where
  | user
  | assistant
deriving Repr, DecidableEq

/-- Row shape of training_jobs (backend/models/database_models.py, TrainingJob).
lora_config / training_config JSON blobs are opaque to every operation modelled
here and are omitted. -/
structure TrainingJob where
  name : String
  model_name : String
  dataset_id : Nat
  status : TrainingStatus
  progress : Rat
  current_epoch : Int
  total_epochs : Nat
  current_step : Nat
  total_steps : Int
  loss : Option Rat
  best_loss : Option Rat
  created_at : Nat
  started_at : Option Nat
  completed_at : Option Nat
  error_message : Option String
  output_dir : Option String
  model_path : Option String
deriving Repr, DecidableEq

/-- Row shape of datasets; the JSON data payload is consumed only by the
external training library, so only the metadata needed by the modelled
operations (existence under an id) is kept. -/
structure Dataset where
  name : String
  size : Nat
deriving Repr, DecidableEq

/-- Row shape of training_metrics (backend/models/database_models.py). -/
structure TrainingMetrics where
  job_id : Nat
  step : Nat
  epoch : Int
  loss : Rat
  learning_rate : Rat
  timestamp : Nat
deriving Repr, DecidableEq

/-- The session record as chat_service.py references it.  The declared
chat_sessions table (backend/models/database_models.py) has columns name,
job_id (NOT NULL), model_path (NOT NULL) and an opaque settings JSON, and no
model_name column; the service code nevertheless constructs sessions with a
model_name keyword and None job_id/model_path on the remote-model path, and
reads session.model_name when dispatching a turn.  This structure carries the
attribute set the service references (Option where the service supplies or
tests None); the mismatch with the declared columns is exactly why the
ChatSession constructor call in create_session raises TypeError — see
create_session below. -/
structure ChatSession where
  name : String
  job_id : Option Nat
  model_name : Option String
  model_path : Option String
deriving Repr, DecidableEq

/-- Row shape of chat_messages (backend/models/database_models.py). -/
structure ChatMessage where
  session_id : Nat
  role : ChatMessageRole
  content : String
  timestamp : Nat
deriving Repr, DecidableEq

/-- The relational store: association lists keyed by primary-key ids, plus
autoincrement counters for the chat tables (generate_response returns fresh
message ids to its caller; the session counter is never consumed, because
create_session fails before its INSERT on every path). -/
structure AppDB where
  jobs : List (Nat × TrainingJob)
  datasets : List (Nat × Dataset)
  metrics : List TrainingMetrics
  sessions : List (Nat × ChatSession)
  messages : List (Nat × ChatMessage)
  next_session_id : Nat
  next_message_id : Nat
deriving Repr, DecidableEq

/-- `select ... where id == key` + `scalar_one_or_none()`. -/
def lookupRec {α : Type} (l : List (Nat × α)) (key : Nat) : Option α :=
  (l.find? (fun p => p.1 == key)).map (fun p => p.2)

/-- `update ... where id == key` applied to the jobs table (also models
mutating an ORM row object followed by commit). -/
def updateJobRec (db : AppDB) (key : Nat) (f : TrainingJob → TrainingJob) : AppDB :=
  { db with jobs := db.jobs.map (fun p => if p.1 == key then (p.1, f p.2) else p) }

/-- Status of a job as seen through the store. -/
def statusOf (db : AppDB) (key : Nat) : Option TrainingStatus :=
  (lookupRec db.jobs key).map (fun j => j.status)

/-- Progress of a job as seen through the store. -/
def progressOf (db : AppDB) (key : Nat) : Option Rat :=
  (lookupRec db.jobs key).map (fun j => j.progress)

/-- Errors surfaced by the FastAPI routers: HTTPException status 404 / 400. -/
inductive ApiError where
  | notFound (detail : String)
  | badRequest (detail : String)
deriving Repr, DecidableEq

/-- Boolean success test for `Except`. -/
def exOk {ε α : Type} : Except ε α → Bool
  | Except.ok _ => true
  | Except.error _ => false

/-- POST /jobs/\x7bjob_id\x7d/cancel (backend/api/routers/training.py,
cancel_training_job): 404 when the job does not exist; 400 when the status is
not PENDING/RUNNING; otherwise sets status to CANCELLED and commits.  The
returned AppDB is the store after the request (unchanged on error, matching
the rollback/no-mutation paths of the Python code). -/
def cancel_training_job (db : AppDB) (job_id : Nat) : AppDB × Except ApiError Unit :=
  match lookupRec db.jobs job_id with
  | none => (db, Except.error (ApiError.notFound "Training job not found"))
  | some job =>
    if ¬ (job.status = TrainingStatus.pending ∨ job.status = TrainingStatus.running) then
      (db, Except.error (ApiError.badRequest "Cannot cancel completed job"))
    else
      (updateJobRec db job_id (fun j => { j with status := TrainingStatus.cancelled }),
       Except.ok ())

/-- GET /jobs/\x7bjob_id\x7d (backend/api/routers/training.py,
get_training_job): 404 when absent, otherwise the job row (the response model
is a field-for-field projection of the row). -/
def get_training_job (db : AppDB) (job_id : Nat) : Except ApiError TrainingJob :=
  match lookupRec db.jobs job_id with
  | none => Except.error (ApiError.notFound "Training job not found")
  | some job => Except.ok job

/-- Ids of the chat sessions bound to a job
(`select ChatSession.id where ChatSession.job_id == job_id`). -/
def sessionIdsForJob (db : AppDB) (job_id : Nat) : List Nat :=
  (db.sessions.filter (fun p => p.2.job_id == some job_id)).map (fun p => p.1)

/-- DELETE /jobs/\x7bjob_id\x7d (backend/api/routers/training.py,
delete_training_job): 404 when absent; 400 when RUNNING; otherwise deletes, in
order, the chat messages of the job's sessions, the sessions, the metrics, and
the job row, and commits all of it at once. -/
def delete_training_job (db : AppDB) (job_id : Nat) : AppDB × Except ApiError Unit :=
  match lookupRec db.jobs job_id with
  | none => (db, Except.error (ApiError.notFound "Training job not found"))
  | some job =>
    if job.status = TrainingStatus.running then
      (db, Except.error (ApiError.badRequest "Cannot delete running training job"))
    else
      let sids := sessionIdsForJob db job_id
      ({ db with
          messages := db.messages.filter (fun p => !(sids.contains p.2.session_id)),
          sessions := db.sessions.filter (fun p => !(p.2.job_id == some job_id)),
          metrics := db.metrics.filter (fun m => !(m.job_id == job_id)),
          jobs := db.jobs.filter (fun p => !(p.1 == job_id)) },
       Except.ok ())

/-- Python `int()` truncation toward zero on an exact rational
(`int(logs["epoch"])` in _save_metrics_safely). -/
def pyIntOfRat (q : Rat) : Int :=
  if 0 ≤ q then q.floor else -((-q).floor)

/-- The slice of HuggingFace TrainerState read by _save_metrics_safely. -/
structure TrainerState where
  global_step : Nat
  max_steps : Int
deriving Repr, DecidableEq

/-- The slice of the per-step `logs` dict read by _save_metrics_safely;
absent keys are `none` (`"loss" in logs`, `logs.get("learning_rate", 0)`). -/
structure LogDict where
  loss : Option Rat
  epoch : Option Rat
  learning_rate : Option Rat
deriving Repr, DecidableEq

/-- TrainerWithProgress._save_metrics_safely
(backend/services/training_service.py, lines 430-466): when the log entry
carries both a loss and an epoch, it appends one training_metrics row and
updates the job row selected by id with the newly computed progress
(`global_step / max_steps * 100` when `max_steps > 0`, otherwise
`epoch / num_train_epochs * 100`), current epoch/step, total steps and loss,
in one transaction; otherwise it does nothing. -/
def save_metrics_safely (db : AppDB) (job_id : Nat) (state : TrainerState)
    (num_train_epochs : Rat) (logs : LogDict) (now : Nat) : AppDB :=
  match logs.loss, logs.epoch with
  | some lossVal, some epochVal =>
    let metric : TrainingMetrics :=
      { job_id := job_id, step := state.global_step, epoch := pyIntOfRat epochVal,
        loss := lossVal, learning_rate := logs.learning_rate.getD 0, timestamp := now }
    let progressVal : Rat :=
      if 0 < state.max_steps then
        ((state.global_step : Rat) / (state.max_steps : Rat)) * 100
      else
        (epochVal / num_train_epochs) * 100
    updateJobRec { db with metrics := db.metrics ++ [metric] } job_id (fun j =>
      { j with progress := progressVal, current_epoch := pyIntOfRat epochVal,
               current_step := state.global_step, total_steps := state.max_steps,
               loss := some lossVal })
  | _, _ => db

/-- One step-level callback as delivered by the trainer to the progress
reporter: trainer global step plus the logged scalars. -/
structure StepCallback where
  global_step : Nat
  epoch : Rat
  loss : Rat
  learning_rate : Rat
deriving Repr, DecidableEq

/-- A sequence of progress-reporter callbacks against a fixed job and a fixed
max_steps, applied in order (each one is a _save_metrics_safely invocation). -/
def runCallbacks (db : AppDB) (job_id : Nat) (max_steps : Int)
    (num_train_epochs : Rat) (now : Nat) (cs : List StepCallback) : AppDB :=
  cs.foldl
    (fun d c =>
      save_metrics_safely d job_id { global_step := c.global_step, max_steps := max_steps }
        num_train_epochs { loss := some c.loss, epoch := some c.epoch, learning_rate := some c.learning_rate }
        now)
    db

/-- The step-based progress percentage persisted by _save_metrics_safely. -/
def stepProgress (max_steps : Int) (global_step : Nat) : Rat :=
  ((global_step : Rat) / (max_steps : Rat)) * 100

/-- TrainingService._update_job_error
(backend/services/training_service.py, lines 389-403): sets status FAILED, the
error text, and the completion timestamp on the job selected by id. -/
def update_job_error (db : AppDB) (job_id : Nat) (msg : String) (now : Nat) : AppDB :=
  updateJobRec db job_id (fun j =>
    { j with status := TrainingStatus.failed, error_message := some msg,
             completed_at := some now })

/-- TrainingService.start_training
(backend/services/training_service.py, lines 28-57), as the trace of committed
store states: load the job (absent: log and return, no commit); commit
status := RUNNING with the start time stamped; then load the dataset — if it
is missing, commit the FAILED transition via _update_job_error and stop.  When
the dataset is present control passes to _run_training (the external training
computation), which is outside the scope of the claims settled here, so the
trace ends at the RUNNING commit. -/
def start_training (db : AppDB) (job_id : Nat) (now : Nat) : List AppDB :=
  match lookupRec db.jobs job_id with
  | none => []
  | some job =>
    let db1 := updateJobRec db job_id (fun j =>
      { j with status := TrainingStatus.running, started_at := some now })
    match lookupRec db1.datasets job.dataset_id with
    | none => [db1, update_job_error db1 job_id "Dataset not found" now]
    | some _ => [db1]

/-- Python str.strip() (whitespace trim). -/
def pyStrip (s : String) : String := s.trim

/-- Python `needle in hay` for a non-empty needle (every needle used by the
chat pipeline is a non-empty literal). -/
def pyContains (hay needle : String) : Bool :=
  (hay.splitOn needle).length != 1

/-- Python str.isdigit(): non-empty and all digits. -/
def pyIsDigit (s : String) : Bool :=
  s ≠ "" && s.toList.all Char.isDigit

/-- Python truthiness of an optional integer field (None and 0 are falsy). -/
def truthyNat : Option Nat → Bool
  | some n => n != 0
  | none => false

/-- Python truthiness of an optional string field (None and "" are falsy). -/
def truthyStr : Option String → Bool
  | some s => s != ""
  | none => false

/-- ChatSessionCreate.model_validate (backend/models/schemas.py, lines
118-136): rejects requests in which neither field is truthy, then requests in
which both are truthy; pydantic field validation accepts everything else. -/
def chatSessionValidate (job_id : Option Nat) (model_name : Option String) :
    Except String Unit :=
  if !(truthyNat job_id) && !(truthyStr model_name) then
    Except.error "Either job_id or model_name must be provided"
  else if truthyNat job_id && truthyStr model_name then
    Except.error "Only one of job_id or model_name should be provided"
  else
    Except.ok ()

/-- The validated request body for POST /sessions (settings JSON omitted as
opaque and unused by the modelled control flow). -/
structure ChatSessionCreate where
  name : String
  job_id : Option Nat
  model_name : Option String
deriving Repr, DecidableEq

/-- Errors surfaced by the chat router for POST /sessions
(backend/api/routers/chat.py, lines 18-29): a ValueError becomes HTTP 400
carrying the ValueError text, any other exception becomes HTTP 500 with detail
"Failed to create session: ...". -/
inductive ChatApiError where
  | badRequest (detail : String)
  | internal (detail : String)
deriving Repr, DecidableEq

/-- The TypeError raised by the declarative constructor inside
ChatService.create_session: the chat_sessions model declares no model_name
column, so `ChatSession(model_name=...)` is rejected before anything is added
to the database session.  (The real message quotes the keyword name.) -/
def modelNameCtorTypeError : String :=
  "model_name is an invalid keyword argument for ChatSession"

/-- POST /sessions: pydantic validation (ChatSessionCreate.model_validate)
followed by ChatService.create_session (backend/services/chat_service.py,
lines 33-84), surfaced through the router's handlers.  `ollamaHasModel` is the
external Ollama service's check_model_exists.  Validation and the per-branch
lookups raise ValueError (HTTP 400); every path that survives them reaches the
`ChatSession(name=..., job_id=..., model_name=..., model_path=..., ...)`
construction, which raises TypeError (HTTP 500) because the declared model has
no model_name column — so no path persists a session or returns a session
id. -/
def create_session (ollamaHasModel : String → Bool) (db : AppDB)
    (req : ChatSessionCreate) : AppDB × Except ChatApiError Nat :=
  match chatSessionValidate req.job_id req.model_name with
  | Except.error e => (db, Except.error (ChatApiError.badRequest e))
  | Except.ok _ =>
    if truthyNat req.job_id then
      match lookupRec db.jobs (req.job_id.getD 0) with
      | none =>
        (db, Except.error (ChatApiError.badRequest
          ("Training job " ++ toString (req.job_id.getD 0) ++ " not found")))
      | some job =>
        if !(truthyStr job.model_path) then
          (db, Except.error (ChatApiError.badRequest
            ("Training job " ++ toString (req.job_id.getD 0) ++ " has no model path")))
        else
          (db, Except.error (ChatApiError.internal
            ("Failed to create session: " ++ modelNameCtorTypeError)))
    else if truthyStr req.model_name then
      if ollamaHasModel (req.model_name.getD "") then
        (db, Except.error (ChatApiError.internal
          ("Failed to create session: " ++ modelNameCtorTypeError)))
      else
        (db, Except.error (ChatApiError.badRequest
          ("Ollama model " ++ req.model_name.getD "" ++ " not found")))
    else
      (db, Except.error (ChatApiError.badRequest
        "Either job_id or model_name must be provided"))

/-- Fixed reply returned when the whole generation attempt raised (also the
text of the outer error handler of generate_response). -/
def errorOccurredMsg : String := "エラーが発生しました。"

/-- Reply used by _generate_with_ollama when the Ollama call raised. -/
def ollamaErrorMsg : String := "Ollamaでの生成中にエラーが発生しました。"

/-- Reply used by _generate_with_ollama when the Ollama text is empty. -/
def ollamaEmptyMsg : String := "申し訳ございませんが、応答を生成できませんでした。"

/-- Reply used by _generate_with_neural_engine when its body raised. -/
def neErrorMsg : String := "Neural Engineでの生成中にエラーが発生しました。"

/-- Reply used by _generate_with_model on a model-loading TimeoutError. -/
def timeoutMsg : String :=
  "モデル読み込みに時間がかかっています。シンプルな応答で代替します。こんばんは！今夜もよろしくお願いします。"

/-- Final generic fallback of the standard tier's lexical fallback table. -/
def genericFallbackMsg : String := "そうですね。他に何かお話ししませんか？"

/-- The simple_responses trigger table of _generate_with_model (lines 348-356),
in source (= Python dict insertion) order. -/
def simple_responses : List (String × String) :=
  [("おはよう", "おはようございます！"),
   ("こんにちは", "こんにちは！"),
   ("こんばんは", "こんばんは！"),
   ("ありがとう", "どういたしまして。"),
   ("元気", "はい、元気です！"),
   ("天気", "今日はいい天気ですね。"),
   ("さようなら", "さようなら、また会いましょう。")]

/-- The role-tag strings _generate_with_model strips from a response head. -/
def prefixes_to_remove : List String :=
  ["Bot:", "Assistant:", "AI:", "Response:", "Reply:"]

/-- The prefix-removal loop of _generate_with_model (lines 313-317): drop the
first matching role tag and strip, then stop. -/
def stripLeadingRoleTag (s : String) : String :=
  match prefixes_to_remove.find? (fun p => p.isPrefixOf s) with
  | some p => pyStrip (s.drop p.length)
  | none => s

/-- The degenerate-output test of _generate_with_model (lines 320-324): only
digits after removing spaces/periods/commas, or empty after strip, or a single
punctuation character. -/
def isLowQuality (response : String) : Bool :=
  pyIsDigit (((response.replace " " "").replace "." "").replace "," "")
  || (pyStrip response).length < 1
  || ((pyStrip response).length == 1 && pyContains "!?.,;:" (pyStrip response))

/-- Cleanup applied by _generate_with_model to the decoded new tokens (lines
286-326): none when no new tokens were generated; strip, cut at "User:" and
"<|endoftext|>", strip again, drop a leading role tag, blank out degenerate
outputs. -/
def cleanNewTokens (newText : Option String) : String :=
  let response :=
    match newText with
    | some raw =>
      let r1 := pyStrip raw
      let r2 := if pyContains r1 "User:" then pyStrip ((r1.splitOn "User:").headD "") else r1
      if pyContains r2 "<|endoftext|>" then pyStrip ((r2.splitOn "<|endoftext|>").headD "") else r2
    | none => ""
  let response2 := pyStrip response
  let response3 := stripLeadingRoleTag response2
  if response3 != "" && isLowQuality response3 then "" else response3

/-- The alternative extraction tried when the cleaned response is empty (lines
334-342): only when new tokens exist, re-decode the full output and take what
follows the last "Bot:" marker. -/
def altBotExtract (newText : Option String) (fullText : String) : String :=
  match newText with
  | some _ =>
    if pyContains fullText "Bot:" then pyStrip ((fullText.splitOn "Bot:").getLastD "") else ""
  | none => ""

/-- The lexical fallback of _generate_with_model (lines 345-366): the first
trigger phrase contained in the prompt selects its canned reply, otherwise the
previous response text is kept; an empty result becomes the generic
fallback. -/
def lexicalFallback (prompt seed : String) : String :=
  let picked :=
    match simple_responses.find? (fun kv => pyContains prompt kv.1) with
    | some kv => kv.2
    | none => seed
  if picked = "" then genericFallbackMsg else picked

/-- Outcome of the external load + generate + decode performed by
_generate_with_model: a TimeoutError from model loading, any other exception,
or a completed generation carrying the decoded new-token text (none when the
output was no longer than the input) and the decoded full text. -/
inductive ModelGenOutcome where
  | loadTimeout
  | raised
  | generated (newText : Option String) (fullText : String)
deriving Repr, DecidableEq

/-- ChatService._generate_with_model (backend/services/chat_service.py, lines
228-378): the standard adapted-model tier.  Total: every exception path is
caught inside the Python function and converted to a fixed reply. -/
def generate_with_model (prompt : String) (o : ModelGenOutcome) : String :=
  match o with
  | ModelGenOutcome.loadTimeout => timeoutMsg
  | ModelGenOutcome.raised => errorOccurredMsg
  | ModelGenOutcome.generated newText fullText =>
    let response := cleanNewTokens newText
    if response = "" then
      let response2 := altBotExtract newText fullText
      if response2 = "" || pyContains response2 "User:" || pyContains response2 "I have no idea" then
        lexicalFallback prompt response2
      else response2
    else response

/-- ChatService._generate_with_ollama (lines 743-777): the remote tier.  The
oracle is the external Ollama generate call (`error` = transport raised,
`ok s` = the response dict's text).  Total: both failure shapes become fixed
replies. -/
def generate_with_ollama (o : Except Unit String) : String :=
  match o with
  | Except.error _ => ollamaErrorMsg
  | Except.ok raw =>
    if pyStrip raw = "" then ollamaEmptyMsg else pyStrip raw

/-- Outcome of the external Core ML predict + decode inside
_generate_with_neural_engine: the outer body raised, the inner token decode
raised (the reply then embeds the measured inference time), or a decoded
string (with the measured inference time for the timing fallbacks). -/
inductive NEOutcome where
  | raised
  | decodeFailed (timeStr : String)
  | decoded (text : String) (timeStr : String)
deriving Repr, DecidableEq

/-- Cleanup applied by _generate_with_neural_engine to the decoded tokens
(lines 913-920): strip, cut at "User:", remove "Bot:" markers. -/
def neCleanDecoded (text : String) : String :=
  let r1 := pyStrip text
  let r2 := if pyContains r1 "User:" then pyStrip ((r1.splitOn "User:").headD "") else r1
  if pyContains r2 "Bot:" then pyStrip (r2.replace "Bot:" "") else r2

/-- ChatService._generate_with_neural_engine (lines 848-943): the accelerated
tier.  `cached` is the `job_id in self.neural_engine_cache` test; its failure
raises a ValueError that the function's own handler converts to the fixed
error reply, so the function is total. -/
def generate_with_neural_engine (cached : Bool) (o : NEOutcome) (prompt : String) : String :=
  if !cached then neErrorMsg
  else
    match o with
    | NEOutcome.raised => neErrorMsg
    | NEOutcome.decodeFailed t => "Neural Engine処理完了（" ++ t ++ "ms）"
    | NEOutcome.decoded text t =>
      let r3 := neCleanDecoded text
      if r3 = "" || r3.length < 2 then
        if pyContains prompt "こんにちは" then "こんにちは！Neural Engineで処理しています。"
        else if pyContains prompt "天気" then "今日は良い天気ですね。"
        else if pyContains prompt "ありがとう" then "どういたしまして。"
        else "Neural Engineで高速処理しました（" ++ t ++ "ms）"
      else r3

/-- External outcomes for one generation turn, fixing what every external call
the dispatcher can reach would do: the Ollama generate call, the
is_neural_engine_available probe, whether the job is already in the
neural-engine cache, whether _load_neural_engine_model succeeds (it re-raises
on failure), the Core ML outcome, and the standard-tier outcome. -/
structure TierOracle where
  ollamaResult : Except Unit String
  neAvailable : Bool
  neCached : Bool
  neLoadOk : Bool
  neOutcome : NEOutcome
  modelOutcome : ModelGenOutcome

/-- The tier-selection logic of ChatService.generate_response (lines 147-192):
a truthy model_name selects the remote tier; otherwise a truthy job_id with an
available accelerated artifact selects the accelerated tier, loading it first
when uncached and falling back to the standard tier if that load raises; every
other case runs the standard tier.  After a successful load the job key is in
the neural-engine cache, so the accelerated tier is always entered with
`cached = true` from here. -/
def computeResponse (sess : ChatSession) (message : String) (o : TierOracle) : String :=
  if truthyStr sess.model_name then
    generate_with_ollama o.ollamaResult
  else if truthyNat sess.job_id && o.neAvailable then
    if o.neCached then
      generate_with_neural_engine true o.neOutcome message
    else if o.neLoadOk then
      generate_with_neural_engine true o.neOutcome message
    else
      generate_with_model message o.modelOutcome
  else
    generate_with_model message o.modelOutcome

/-- INSERT into chat_messages returning the fresh autoincrement id. -/
def insertChatMessage (db : AppDB) (session_id : Nat) (role : ChatMessageRole)
    (content : String) (now : Nat) : AppDB × Nat :=
  ({ db with
      messages := db.messages ++
        [(db.next_message_id,
          { session_id := session_id, role := role, content := content, timestamp := now })],
      next_message_id := db.next_message_id + 1 },
   db.next_message_id)

/-- Response body of POST /generate (backend/models/schemas.py,
ChatGenerateResponse). -/
structure ChatGenerateResponse where
  message_id : Nat
  response : String
  session_id : Nat
deriving Repr, DecidableEq

/-- ChatService.generate_response (backend/services/chat_service.py, lines
127-226): load the session (absent: ValueError, nothing persisted); persist
the user message; compute the reply through the tier dispatch (total, see
computeResponse); persist the assistant message; return its id and text.  The
outer exception handler of the Python code fires on persistence-layer failures
and on session rows lacking the model_name attribute (the declared table has
no such column): it persists one assistant message carrying errorOccurredMsg
and returns its id — observationally the same user-then-assistant append this
function produces when the dispatched tier yields that reply (e.g. a falsy
model_name with the standard tier raising), so the handler path is one of the
outcomes the oracle quantification covers. -/
def generate_response (db : AppDB) (session_id : Nat) (message : String)
    (o : TierOracle) (now : Nat) : AppDB × Except String ChatGenerateResponse :=
  match lookupRec db.sessions session_id with
  | none => (db, Except.error ("Chat session " ++ toString session_id ++ " not found"))
  | some sess =>
    let r1 := insertChatMessage db session_id ChatMessageRole.user message now
    let response_text := computeResponse sess message o
    let r2 := insertChatMessage r1.1 session_id ChatMessageRole.assistant response_text now
    (r2.1, Except.ok { message_id := r2.2, response := response_text, session_id := session_id })

/-- The per-instance handle caches of ChatService (model_cache and
tokenizer_cache dicts); handles are identified by the id of the load that
produced them. -/
structure ChatServiceState where
  model_cache : List (Nat × Nat)
  tokenizer_cache : List (Nat × Nat)
deriving Repr, DecidableEq

/-- get_chat_service (backend/api/routers/chat.py, lines 14-16): the FastAPI
dependency constructs a brand-new ChatService — with empty caches — for every
request. -/
def get_chat_service (_u : Unit) : ChatServiceState :=
  { model_cache := [], tokenizer_cache := [] }

/-- The cache interaction of _generate_with_model / _load_model (lines
240-245 and 444-446): if the key is missing the external load runs and
populates both caches, then the handles are read back.  `newModelHandle` /
`newTokHandle` identify the handles a fresh external load would produce.
Returns the service state, the two handles handed to the caller, and the
number of underlying loads performed (0 or 1). -/
def cache_get (svc : ChatServiceState) (job_id : Nat)
    (newModelHandle newTokHandle : Nat) : ChatServiceState × Nat × Nat × Nat :=
  match lookupRec svc.model_cache job_id with
  | some mh => (svc, mh, (lookupRec svc.tokenizer_cache job_id).getD 0, 0)
  | none =>
    ({ svc with model_cache := svc.model_cache ++ [(job_id, newModelHandle)],
                tokenizer_cache := svc.tokenizer_cache ++ [(job_id, newTokHandle)] },
     newModelHandle, newTokHandle, 1)

theorem lookupRec_map_update {α : Type} (l : List (Nat × α)) (key : Nat) (f : α → α) :
    lookupRec (l.map (fun p => if p.1 == key then (p.1, f p.2) else p)) key =
      (lookupRec l key).map f := by
  induction l with
  | nil => rfl
  | cons hd tl ih =>
    by_cases h : hd.1 = key
    · simp [lookupRec, List.find?, h]
    · have hb : (hd.1 == key) = false := by simp [h]
      simpa [lookupRec, List.find?, hb] using ih

theorem lookupRec_updateJobRec (db : AppDB) (key : Nat) (f : TrainingJob → TrainingJob) :
    lookupRec (updateJobRec db key f).jobs key = (lookupRec db.jobs key).map f :=
  lookupRec_map_update db.jobs key f

theorem updateJobRec_datasets (db : AppDB) (key : Nat) (f : TrainingJob → TrainingJob) :
    (updateJobRec db key f).datasets = db.datasets := rfl

/-- A default job fixture. -/
def mkJob (st : TrainingStatus) : TrainingJob :=
  { name := "job", model_name := "llama2", dataset_id := 5, status := st,
    progress := 0, current_epoch := 0, total_epochs := 3, current_step := 0,
    total_steps := 0, loss := none, best_loss := none, created_at := 0,
    started_at := none, completed_at := none, error_message := none,
    output_dir := none, model_path := none }

/-- The empty store fixture. -/
def emptyDB : AppDB :=
  { jobs := [], datasets := [], metrics := [], sessions := [], messages := [],
    next_session_id := 0, next_message_id := 0 }

/-- Claim C3: for every job present in the store, cancelJob succeeds exactly
when its status is PENDING or RUNNING; in every other status it returns the
InvalidTransition (HTTP 400) error and the whole store — hence every field of
the job — is left unchanged. -/
theorem cancel_training_job_c3 (db : AppDB) (job_id : Nat) (job : TrainingJob)
    (h : lookupRec db.jobs job_id = some job) :
    (exOk (cancel_training_job db job_id).2 = true ↔
      (job.status = TrainingStatus.pending ∨ job.status = TrainingStatus.running)) ∧
    (¬ (job.status = TrainingStatus.pending ∨ job.status = TrainingStatus.running) →
      cancel_training_job db job_id =
        (db, Except.error (ApiError.badRequest "Cannot cancel completed job"))) := by
  unfold cancel_training_job
  rw [h]
  by_cases hs : job.status = TrainingStatus.pending ∨ job.status = TrainingStatus.running
  · simp [hs, exOk]
  · simp [hs, exOk]

def dbC3 : AppDB := { emptyDB with jobs := [(1, mkJob TrainingStatus.completed)] }

/-- Claim C3 witness: cancelling a COMPLETED job fails and leaves the store
unchanged. -/
theorem cancel_training_job_c3_witness :
    cancel_training_job dbC3 1 =
      (dbC3, Except.error (ApiError.badRequest "Cannot cancel completed job")) :=
  (cancel_training_job_c3 dbC3 1 (mkJob TrainingStatus.completed) rfl).2 (by decide)

/-- Claim C9: a successful cancel rewrites only the status field of the job to
CANCELLED; progress, current_epoch, current_step, loss, error_message,
output_dir, model_path, started_at and completed_at keep their previous values
— in particular no completion timestamp is stamped. -/
theorem cancel_training_job_c9 (db : AppDB) (job_id : Nat) (job : TrainingJob)
    (h : lookupRec db.jobs job_id = some job)
    (hs : job.status = TrainingStatus.pending ∨ job.status = TrainingStatus.running) :
    (cancel_training_job db job_id).2 = Except.ok () ∧
    lookupRec (cancel_training_job db job_id).1.jobs job_id =
      some { job with status := TrainingStatus.cancelled } ∧
    ∀ j2, lookupRec (cancel_training_job db job_id).1.jobs job_id = some j2 →
      j2.progress = job.progress ∧ j2.current_epoch = job.current_epoch ∧
      j2.current_step = job.current_step ∧ j2.loss = job.loss ∧
      j2.error_message = job.error_message ∧ j2.output_dir = job.output_dir ∧
      j2.model_path = job.model_path ∧ j2.started_at = job.started_at ∧
      j2.completed_at = job.completed_at := by
  have hcase : cancel_training_job db job_id =
      (updateJobRec db job_id (fun j => { j with status := TrainingStatus.cancelled }),
       Except.ok ()) := by
    unfold cancel_training_job
    rw [h]
    simp [hs]
  rw [hcase]
  have hlk : lookupRec (updateJobRec db job_id
      (fun j => { j with status := TrainingStatus.cancelled })).jobs job_id =
      some { job with status := TrainingStatus.cancelled } := by
    rw [lookupRec_updateJobRec, h]
    rfl
  refine ⟨rfl, hlk, ?_⟩
  intro j2 hj2
  rw [hlk] at hj2
  cases hj2
  exact ⟨rfl, rfl, rfl, rfl, rfl, rfl, rfl, rfl, rfl⟩

def jobC9 : TrainingJob :=
  { mkJob TrainingStatus.running with
      progress := 40, current_step := 2, loss := some 1, started_at := some 11 }

def dbC9 : AppDB := { emptyDB with jobs := [(1, jobC9)] }

/-- Claim C9 witness: cancelling a RUNNING job keeps every non-status field. -/
theorem cancel_training_job_c9_witness :
    lookupRec (cancel_training_job dbC9 1).1.jobs 1 =
      some { jobC9 with status := TrainingStatus.cancelled } :=
  (cancel_training_job_c9 dbC9 1 jobC9 rfl (Or.inr rfl)).2.1

/-- Claim C4: deleteJob on a RUNNING job returns the DeleteRefused (HTTP 400)
error and deletes nothing (the store is unchanged); on a terminal job it
removes the job row, every training_metrics row of the job, every chat session
bound to the job and every chat message of those sessions, after which getJob
returns NotFound. -/
theorem delete_training_job_c4 (db : AppDB) (job_id : Nat) (job : TrainingJob)
    (h : lookupRec db.jobs job_id = some job) :
    (job.status = TrainingStatus.running →
      delete_training_job db job_id =
        (db, Except.error (ApiError.badRequest "Cannot delete running training job"))) ∧
    (job.status = TrainingStatus.completed ∨ job.status = TrainingStatus.failed ∨
        job.status = TrainingStatus.cancelled →
      (delete_training_job db job_id).2 = Except.ok () ∧
      lookupRec (delete_training_job db job_id).1.jobs job_id = none ∧
      (∀ m ∈ (delete_training_job db job_id).1.metrics, m.job_id ≠ job_id) ∧
      (∀ p ∈ (delete_training_job db job_id).1.sessions, p.2.job_id ≠ some job_id) ∧
      (∀ p ∈ (delete_training_job db job_id).1.messages,
        p.2.session_id ∉ sessionIdsForJob db job_id) ∧
      get_training_job (delete_training_job db job_id).1 job_id =
        Except.error (ApiError.notFound "Training job not found")) := by
  constructor
  · intro hrun
    unfold delete_training_job
    rw [h]
    simp [hrun]
  · intro hterm
    have hrun : ¬ job.status = TrainingStatus.running := by
      rcases hterm with h1 | h1 | h1 <;> rw [h1] <;> intro hc <;> cases hc
    have hcase : delete_training_job db job_id =
        ({ db with
            messages := db.messages.filter
              (fun p => !((sessionIdsForJob db job_id).contains p.2.session_id)),
            sessions := db.sessions.filter (fun p => !(p.2.job_id == some job_id)),
            metrics := db.metrics.filter (fun m => !(m.job_id == job_id)),
            jobs := db.jobs.filter (fun p => !(p.1 == job_id)) },
         Except.ok ()) := by
      unfold delete_training_job
      rw [h]
      simp [hrun]
    rw [hcase]
    have hjobs : lookupRec (db.jobs.filter (fun p => !(p.1 == job_id))) job_id = none := by
      unfold lookupRec
      have hfind : (db.jobs.filter (fun p => !(p.1 == job_id))).find?
          (fun p => p.1 == job_id) = none := by
        rw [List.find?_eq_none]
        intro p hp
        have := (List.mem_filter.mp hp).2
        simpa using this
      rw [hfind]
      rfl
    refine ⟨rfl, hjobs, ?_, ?_, ?_, ?_⟩
    · intro m hm
      have := (List.mem_filter.mp hm).2
      simpa using this
    · intro p hp
      have := (List.mem_filter.mp hp).2
      simpa using this
    · intro p hp
      have := (List.mem_filter.mp hp).2
      simpa using this
    · unfold get_training_job
      rw [show lookupRec ({ db with
            messages := db.messages.filter
              (fun p => !((sessionIdsForJob db job_id).contains p.2.session_id)),
            sessions := db.sessions.filter (fun p => !(p.2.job_id == some job_id)),
            metrics := db.metrics.filter (fun m => !(m.job_id == job_id)),
            jobs := db.jobs.filter (fun p => !(p.1 == job_id)) } : AppDB).jobs job_id = none
        from hjobs]

def dbC4 : AppDB :=
  { emptyDB with
      jobs := [(1, mkJob TrainingStatus.completed), (2, mkJob TrainingStatus.pending)],
      metrics := [{ job_id := 1, step := 1, epoch := 0, loss := 2, learning_rate := 0,
                    timestamp := 0 },
                  { job_id := 2, step := 1, epoch := 0, loss := 3, learning_rate := 0,
                    timestamp := 0 }],
      sessions := [(4, { name := "s4", job_id := some 1, model_name := none,
                         model_path := some "/app/m" }),
                   (5, { name := "s5", job_id := some 2, model_name := none,
                         model_path := some "/app/m2" })],
      messages := [(9, { session_id := 4, role := ChatMessageRole.user, content := "hi",
                         timestamp := 0 }),
                   (10, { session_id := 5, role := ChatMessageRole.user, content := "yo",
                          timestamp := 0 })] }

/-- Claim C4 witness: deleting COMPLETED job 1 succeeds, removes it together
with its metrics, sessions and their messages, and a subsequent getJob is
NotFound. -/
theorem delete_training_job_c4_witness :
    (delete_training_job dbC4 1).2 = Except.ok () ∧
    lookupRec (delete_training_job dbC4 1).1.jobs 1 = none ∧
    get_training_job (delete_training_job dbC4 1).1 1 =
      Except.error (ApiError.notFound "Training job not found") := by
  have h := (delete_training_job_c4 dbC4 1 (mkJob TrainingStatus.completed) rfl).2
    (Or.inl rfl)
  exact ⟨h.1, h.2.1, h.2.2.2.2.2⟩

def jobC1 : TrainingJob :=
  { mkJob TrainingStatus.cancelled with
      progress := 10, current_epoch := 1, current_step := 3 }

def dbC1 : AppDB := { emptyDB with jobs := [(1, jobC1)] }

/-- Shared shape lemma: a _save_metrics_safely call whose log entry carries
loss and epoch rewrites the selected job row with the newly computed progress,
epoch, step, total steps and loss, keeping every other field (the status
included). -/
theorem save_metrics_job_eq (db : AppDB) (job_id : Nat) (job : TrainingJob)
    (st : TrainerState) (ne l e lr : Rat) (now : Nat)
    (h : lookupRec db.jobs job_id = some job) :
    lookupRec (save_metrics_safely db job_id st ne
        { loss := some l, epoch := some e, learning_rate := some lr } now).jobs job_id =
      some { job with
        progress := if 0 < st.max_steps then stepProgress st.max_steps st.global_step
                    else (e / ne) * 100,
        current_epoch := pyIntOfRat e, current_step := st.global_step,
        total_steps := st.max_steps, loss := some l } := by
  unfold save_metrics_safely
  dsimp only
  rw [lookupRec_updateJobRec]
  dsimp only
  rw [h]
  rfl

/-- Claim C1 counterexample: job 1 is already CANCELLED (a terminal state)
with persisted progress 10 and current_step 3, yet a progress-reporting write
(_save_metrics_safely) arriving afterwards overwrites progress with 50 —
the update in training_service.py lines 453-463 selects the row by id alone
and never checks the status, so terminal states do not freeze the progress
fields. -/
theorem save_metrics_after_terminal_counterexample :
    statusOf dbC1 1 = some TrainingStatus.cancelled ∧
    progressOf dbC1 1 = some 10 ∧
    progressOf (save_metrics_safely dbC1 1 { global_step := 1, max_steps := 2 } 3
        { loss := some 1, epoch := some 1, learning_rate := some 0 } 7) 1 = some 50 ∧
    statusOf (save_metrics_safely dbC1 1 { global_step := 1, max_steps := 2 } 3
        { loss := some 1, epoch := some 1, learning_rate := some 0 } 7) 1 =
      some TrainingStatus.cancelled ∧
    ((50 : Rat) ≠ 10) := by
  have hq : lookupRec (save_metrics_safely dbC1 1 { global_step := 1, max_steps := 2 } 3
      { loss := some 1, epoch := some 1, learning_rate := some 0 } 7).jobs 1 =
      some { jobC1 with
        progress := if 0 < (2:Int) then stepProgress 2 1 else ((1:Rat) / 3) * 100,
        current_epoch := pyIntOfRat 1, current_step := 1, total_steps := 2,
        loss := some 1 } := save_metrics_job_eq dbC1 1 jobC1
    { global_step := 1, max_steps := 2 } 3 1 1 0 7 rfl
  refine ⟨rfl, rfl, ?_, ?_, by norm_num⟩
  · unfold progressOf
    rw [hq]
    norm_num [stepProgress]
  · unfold statusOf
    rw [hq]
    rfl

/-- Claim C1 amended: progress-reporting writes are keyed on the job id alone
and are applied in every status: whenever the log entry carries both a loss
and an epoch, the job's progress, current_epoch, current_step, total_steps and
loss fields are overwritten with the newly computed values even when the job
is already in a terminal state — only the status field itself is left
untouched by the write.  (Cancellation itself, see C9, changes only the
status.) -/
theorem save_metrics_updates_regardless_of_status (db : AppDB) (job_id : Nat)
    (job : TrainingJob) (st : TrainerState) (ne l e lr : Rat) (now : Nat)
    (h : lookupRec db.jobs job_id = some job) :
    lookupRec (save_metrics_safely db job_id st ne
        { loss := some l, epoch := some e, learning_rate := some lr } now).jobs job_id =
      some { job with
        progress := if 0 < st.max_steps then stepProgress st.max_steps st.global_step
                    else (e / ne) * 100,
        current_epoch := pyIntOfRat e, current_step := st.global_step,
        total_steps := st.max_steps, loss := some l } ∧
    statusOf (save_metrics_safely db job_id st ne
        { loss := some l, epoch := some e, learning_rate := some lr } now) job_id =
      some job.status := by
  have hq := save_metrics_job_eq db job_id job st ne l e lr now h
  refine ⟨hq, ?_⟩
  unfold statusOf
  rw [hq]
  rfl

/-- Claim C1 amended witness: a write against the CANCELLED job 1 updates its
progress fields and keeps the status. -/
theorem save_metrics_updates_regardless_of_status_witness :
    lookupRec (save_metrics_safely dbC1 1 { global_step := 1, max_steps := 2 } 3
        { loss := some 1, epoch := some 1, learning_rate := some 0 } 7).jobs 1 =
      some { jobC1 with
        progress := if 0 < (2:Int) then stepProgress 2 1 else ((1:Rat) / 3) * 100,
        current_epoch := pyIntOfRat 1, current_step := 1, total_steps := 2,
        loss := some 1 } ∧
    statusOf (save_metrics_safely dbC1 1 { global_step := 1, max_steps := 2 } 3
        { loss := some 1, epoch := some 1, learning_rate := some 0 } 7) 1 =
      some TrainingStatus.cancelled :=
  save_metrics_updates_regardless_of_status dbC1 1 jobC1
    { global_step := 1, max_steps := 2 } 3 1 1 0 7 rfl

theorem runCallbacks_cons (db : AppDB) (job_id : Nat) (M : Int) (ne : Rat) (now : Nat)
    (c : StepCallback) (cs : List StepCallback) :
    runCallbacks db job_id M ne now (c :: cs) =
      runCallbacks (save_metrics_safely db job_id
          { global_step := c.global_step, max_steps := M } ne
          { loss := some c.loss, epoch := some c.epoch, learning_rate := some c.learning_rate }
          now)
        job_id M ne now cs := rfl

theorem runCallbacks_progress (job_id : Nat) (M : Int) (ne : Rat) (now : Nat)
    (cs : List StepCallback) :
    ∀ (db : AppDB) (job : TrainingJob), lookupRec db.jobs job_id = some job →
      ∀ i (hi : i < cs.length),
        progressOf (runCallbacks db job_id M ne now (cs.take (i+1))) job_id =
          some (if 0 < M then stepProgress M (cs.get ⟨i, hi⟩).global_step
                else ((cs.get ⟨i, hi⟩).epoch / ne) * 100) := by
  induction cs with
  | nil =>
    intro db job hj i hi
    exact absurd hi (by simp)
  | cons c cs ih =>
    intro db job hj i hi
    have hq := save_metrics_job_eq db job_id job
      { global_step := c.global_step, max_steps := M } ne c.loss c.epoch c.learning_rate now hj
    cases i with
    | zero =>
      show progressOf (runCallbacks db job_id M ne now [c]) job_id = _
      unfold progressOf runCallbacks
      simp only [List.foldl]
      rw [hq]
      rfl
    | succ j =>
      have htake : (c :: cs).take (j + 1 + 1) = c :: cs.take (j + 1) := rfl
      rw [htake, runCallbacks_cons]
      have hi2 : j < cs.length := by simpa using hi
      have := ih _ _ hq j hi2
      simpa using this

theorem stepProgress_mono (M : Int) (hM : 0 < M) (a b : Nat) (h : a ≤ b) :
    stepProgress M a ≤ stepProgress M b := by
  unfold stepProgress
  have hM2 : (0:Rat) < (M:Rat) := by exact_mod_cast hM
  have hab : (a:Rat) ≤ (b:Rat) := by exact_mod_cast h
  have h1 : (a:Rat) / (M:Rat) ≤ (b:Rat) / (M:Rat) := (div_le_div_iff_of_pos_right hM2).mpr hab
  exact mul_le_mul_of_nonneg_right h1 (by norm_num)

theorem progress_trace_mono (M : Int) (hM : 0 < M) (cs : List StepCallback)
    (hinc : List.Chain' (fun a b => a.global_step < b.global_step) cs) :
    List.Chain' (fun x y => x ≤ y) (cs.map (fun c => stepProgress M c.global_step)) := by
  rw [List.chain'_map]
  exact List.Chain'.imp (fun a b hab => stepProgress_mono M hM _ _ (Nat.le_of_lt hab)) hinc

def dbC5 : AppDB := { emptyDB with jobs := [(1, mkJob TrainingStatus.running)] }

/-- Claim C5 counterexample: a single callback (trivially strictly increasing)
with step 2 against max_steps 1 persists progress 200 — _save_metrics_safely
applies `global_step / max_steps * 100` with no clamping, whereas the claim
says the persisted value equals that quotient clamped to [0,100], which here
is 100 ≠ 200. -/
theorem progress_not_clamped_counterexample :
    progressOf (save_metrics_safely dbC5 1 { global_step := 2, max_steps := 1 } 1
        { loss := some 1, epoch := some 1, learning_rate := some 0 } 0) 1 = some 200 ∧
    min (100:Rat) (max (0:Rat) 200) = 100 ∧ ((200:Rat) ≠ 100) := by
  refine ⟨?_, by norm_num, by norm_num⟩
  unfold progressOf
  rw [save_metrics_job_eq dbC5 1 (mkJob TrainingStatus.running)
    { global_step := 2, max_steps := 1 } 1 1 1 0 0 rfl]
  norm_num [stepProgress]

/-- Claim C5 amended: for every callback sequence with strictly increasing
step numbers against a fixed max_steps > 0 and an existing job, the progress
persisted after each callback equals `step / maxSteps * 100` exactly (no
clamping is applied, so the value lies in [0,100] only when step ≤ maxSteps),
and the sequence of persisted values is monotonically non-decreasing; when
max_steps is not positive a write instead persists
`epoch / num_train_epochs * 100`. -/
theorem progress_reporting_formula (db : AppDB) (job_id : Nat) (job : TrainingJob)
    (M : Int) (ne : Rat) (now : Nat) (cs : List StepCallback)
    (hM : 0 < M)
    (hj : lookupRec db.jobs job_id = some job)
    (hinc : List.Chain' (fun a b => a.global_step < b.global_step) cs) :
    (∀ i (hi : i < cs.length),
      progressOf (runCallbacks db job_id M ne now (cs.take (i+1))) job_id =
        some (stepProgress M (cs.get ⟨i, hi⟩).global_step)) ∧
    List.Chain' (fun x y => x ≤ y) (cs.map (fun c => stepProgress M c.global_step)) ∧
    (∀ (db2 : AppDB) (job2 : TrainingJob) (st : TrainerState) (l e lr : Rat),
      lookupRec db2.jobs job_id = some job2 → st.max_steps ≤ 0 →
      progressOf (save_metrics_safely db2 job_id st ne
          { loss := some l, epoch := some e, learning_rate := some lr } now) job_id =
        some ((e / ne) * 100)) := by
  refine ⟨?_, progress_trace_mono M hM cs hinc, ?_⟩
  · intro i hi
    have h := runCallbacks_progress job_id M ne now cs db job hj i hi
    rw [if_pos hM] at h
    exact h
  · intro db2 job2 st l e lr hj2 hle
    unfold progressOf
    rw [save_metrics_job_eq db2 job_id job2 st ne l e lr now hj2]
    rw [if_neg (not_lt.mpr hle)]
    rfl

def csW5 : List StepCallback :=
  [{ global_step := 1, epoch := 1, loss := 1, learning_rate := 0 },
   { global_step := 2, epoch := 1, loss := 1, learning_rate := 0 }]

/-- Claim C5 amended witness: after the second of two increasing callbacks
against max_steps 4, the persisted progress is `2 / 4 * 100`. -/
theorem progress_reporting_formula_witness :
    progressOf (runCallbacks dbC5 1 4 1 0 (csW5.take 2)) 1 = some (stepProgress 4 2) :=
  (progress_reporting_formula dbC5 1 (mkJob TrainingStatus.running) 4 1 0 csW5
    (by decide) rfl (by simp [csW5])).1 1 (by decide)

def jobC7 : TrainingJob := mkJob TrainingStatus.pending

def dbC7 : AppDB := { emptyDB with jobs := [(1, jobC7)] }

/-- Claim C7 counterexample: job 1 references dataset 5, which is absent from
the store, yet the runner's committed trace is RUNNING (with the start time
stamped) followed by FAILED — start_training commits the RUNNING transition
right after loading the job and before looking the dataset up, so the job does
pass through RUNNING on the way to FAILED. -/
theorem start_training_passes_through_running :
    lookupRec dbC7.datasets 5 = none ∧
    (start_training dbC7 1 3).map (fun d => statusOf d 1) =
      [some TrainingStatus.running, some TrainingStatus.failed] ∧
    (start_training dbC7 1 3).map (fun d => (lookupRec d.jobs 1).map (fun j => j.started_at)) =
      [some (some 3), some (some 3)] := by
  refine ⟨rfl, rfl, rfl⟩

/-- Claim C7 amended: when the referenced dataset is missing, the background
runner still first commits status RUNNING with the start time stamped —
this happens directly after the job record is loaded and before the dataset is
looked up — and only then commits the FAILED transition with error message
"Dataset not found" and a completion timestamp, and stops; so RUNNING is
entered after loading the job alone, not after both the job and its
dataset. -/
theorem start_training_missing_dataset (db : AppDB) (job_id now : Nat) (job : TrainingJob)
    (hj : lookupRec db.jobs job_id = some job)
    (hd : lookupRec db.datasets job.dataset_id = none) :
    (start_training db job_id now).map (fun d => statusOf d job_id) =
      [some TrainingStatus.running, some TrainingStatus.failed] ∧
    lookupRec ((start_training db job_id now).headD db).jobs job_id =
      some { job with status := TrainingStatus.running, started_at := some now } ∧
    lookupRec ((start_training db job_id now).getLastD db).jobs job_id =
      some { job with status := TrainingStatus.failed, started_at := some now,
                      error_message := some "Dataset not found",
                      completed_at := some now } := by
  have hrun : lookupRec (updateJobRec db job_id (fun j =>
      { j with status := TrainingStatus.running, started_at := some now })).jobs job_id =
      some { job with status := TrainingStatus.running, started_at := some now } := by
    rw [lookupRec_updateJobRec, hj]
    rfl
  have hfail : lookupRec (update_job_error (updateJobRec db job_id (fun j =>
      { j with status := TrainingStatus.running, started_at := some now })) job_id
      "Dataset not found" now).jobs job_id =
      some { job with status := TrainingStatus.failed, started_at := some now,
                      error_message := some "Dataset not found",
                      completed_at := some now } := by
    unfold update_job_error
    rw [lookupRec_updateJobRec, hrun]
    rfl
  have htrace : start_training db job_id now =
      [updateJobRec db job_id (fun j =>
        { j with status := TrainingStatus.running, started_at := some now }),
       update_job_error (updateJobRec db job_id (fun j =>
        { j with status := TrainingStatus.running, started_at := some now })) job_id
        "Dataset not found" now] := by
    unfold start_training
    rw [hj]
    dsimp only
    rw [updateJobRec_datasets, hd]
  rw [htrace]
  refine ⟨?_, ?_, ?_⟩
  · simp only [List.map_cons, List.map_nil]
    unfold statusOf
    rw [hrun, hfail]
    rfl
  · exact hrun
  · exact hfail

/-- Claim C7 amended witness: the amended behaviour at the concrete store
dbC7 (job 1, missing dataset 5). -/
theorem start_training_missing_dataset_witness :
    (start_training dbC7 1 3).map (fun d => statusOf d 1) =
      [some TrainingStatus.running, some TrainingStatus.failed] ∧
    lookupRec ((start_training dbC7 1 3).headD dbC7).jobs 1 =
      some { jobC7 with status := TrainingStatus.running, started_at := some 3 } ∧
    lookupRec ((start_training dbC7 1 3).getLastD dbC7).jobs 1 =
      some { jobC7 with status := TrainingStatus.failed, started_at := some 3,
                        error_message := some "Dataset not found",
                        completed_at := some 3 } :=
  start_training_missing_dataset dbC7 1 3 jobC7 rfl rfl

def reqC6 : ChatSessionCreate := { name := "s", job_id := some 0, model_name := some "llama2" }

/-- Claim C6 counterexample: both a job identity (0) and a remote-model
identifier ("llama2") are supplied, yet no ValidationError is raised:
`not job_id` in ChatSessionCreate.model_validate treats the integer 0 as
absent, validation passes, and the request instead dies on the session
constructor TypeError — surfaced as HTTP 500, not a ValidationError — with
the store unchanged. -/
theorem create_session_both_supplied_counterexample :
    chatSessionValidate (some 0) (some "llama2") = Except.ok () ∧
    create_session (fun _ => true) emptyDB reqC6 =
      (emptyDB, Except.error (ChatApiError.internal
        ("Failed to create session: " ++ modelNameCtorTypeError))) :=
  ⟨rfl, rfl⟩

/-- Claim C6 amended: createSession raises a ValidationError when both fields
are supplied with truthy values (a non-zero job id together with a non-empty
model name) and when no truthy value is supplied (both fields absent, zero or
empty); a falsy-but-present value (job_id = 0 or model_name = "") is treated
as absent by the Python truthiness checks, so job_id = 0 plus a non-empty
existing model name passes validation and instead fails with the session
constructor TypeError (HTTP 500), the chat_sessions model having no
model_name column.  On every input the call surfaces an error and leaves the
store unchanged: no createSession path ever persists a session. -/
theorem create_session_validation (f : String → Bool) (db : AppDB)
    (req : ChatSessionCreate) :
    (truthyNat req.job_id = true → truthyStr req.model_name = true →
      create_session f db req =
        (db, Except.error (ChatApiError.badRequest
          "Only one of job_id or model_name should be provided"))) ∧
    (truthyNat req.job_id = false → truthyStr req.model_name = false →
      create_session f db req =
        (db, Except.error (ChatApiError.badRequest
          "Either job_id or model_name must be provided"))) ∧
    (∃ e, create_session f db req = (db, Except.error e)) := by
  refine ⟨?_, ?_, ?_⟩
  · intro h1 h2
    unfold create_session chatSessionValidate
    rw [h1, h2]
    rfl
  · intro h1 h2
    unfold create_session chatSessionValidate
    rw [h1, h2]
    rfl
  · unfold create_session
    cases chatSessionValidate req.job_id req.model_name with
    | error e => exact ⟨ChatApiError.badRequest e, rfl⟩
    | ok u =>
      dsimp only
      split
      · cases lookupRec db.jobs (req.job_id.getD 0) with
        | none => exact ⟨_, rfl⟩
        | some job =>
          dsimp only
          split
          · exact ⟨_, rfl⟩
          · exact ⟨_, rfl⟩
      · split
        · split
          · exact ⟨_, rfl⟩
          · exact ⟨_, rfl⟩
        · exact ⟨_, rfl⟩

/-- Claim C6 amended witness: both fields truthy is rejected as a
ValidationError with the store unchanged, and neither field supplied is
rejected likewise. -/
theorem create_session_validation_witness :
    create_session (fun _ => true) emptyDB
        { name := "s", job_id := some 2, model_name := some "m" } =
      (emptyDB, Except.error (ChatApiError.badRequest
        "Only one of job_id or model_name should be provided")) ∧
    create_session (fun _ => true) emptyDB
        { name := "s", job_id := none, model_name := none } =
      (emptyDB, Except.error (ChatApiError.badRequest
        "Either job_id or model_name must be provided")) :=
  ⟨(create_session_validation (fun _ => true) emptyDB
      { name := "s", job_id := some 2, model_name := some "m" }).1 rfl rfl,
   (create_session_validation (fun _ => true) emptyDB
      { name := "s", job_id := none, model_name := none }).2.1 rfl rfl⟩

/-- Claim C8 counterexample: two concurrent requests for the same cache key 7
each construct their own ChatService through the get_chat_service dependency
(chat.py returns `ChatService()` per request), so each sees an empty
model_cache and performs its own underlying load: two loads happen, not one,
and the two callers receive handles from two distinct loads (100 vs 200). -/
theorem model_cache_single_flight_counterexample :
    (cache_get (get_chat_service ()) 7 100 101).2.2.2 +
      (cache_get (get_chat_service ()) 7 200 201).2.2.2 = 2 ∧
    ¬ ((cache_get (get_chat_service ()) 7 100 101).2.2.2 +
        (cache_get (get_chat_service ()) 7 200 201).2.2.2 = 1) ∧
    (cache_get (get_chat_service ()) 7 100 101).2.1 = 100 ∧
    (cache_get (get_chat_service ()) 7 200 201).2.1 = 200 ∧
    (100 : Nat) ≠ 200 := by
  refine ⟨rfl, by decide, rfl, rfl, by decide⟩

/-- Claim C8 amended: the service holds no cross-request state — every request
gets a fresh ChatService with empty caches from get_chat_service — so two
concurrent cache lookups for the same key each perform exactly one underlying
load (two in total) and each caller receives the handle produced by its own
load; no single-flight sharing exists.  (Within one ChatService instance a
second lookup after a completed load does hit the cache and performs no
load.) -/
theorem model_cache_per_request_loads (key h1 t1 h2 t2 : Nat) :
    (cache_get (get_chat_service ()) key h1 t1).2.2.2 = 1 ∧
    (cache_get (get_chat_service ()) key h2 t2).2.2.2 = 1 ∧
    (cache_get (get_chat_service ()) key h1 t1).2.2.2 +
      (cache_get (get_chat_service ()) key h2 t2).2.2.2 = 2 ∧
    (cache_get (get_chat_service ()) key h1 t1).2.1 = h1 ∧
    (cache_get (get_chat_service ()) key h2 t2).2.1 = h2 ∧
    (cache_get ((cache_get (get_chat_service ()) key h1 t1).1) key h2 t2).2.2.2 = 0 ∧
    (cache_get ((cache_get (get_chat_service ()) key h1 t1).1) key h2 t2).2.1 = h1 := by
  refine ⟨rfl, rfl, rfl, rfl, rfl, ?_, ?_⟩ <;>
    simp [cache_get, get_chat_service, lookupRec, List.find?]

theorem ne_empty_of_length_pos (s : String) (h : 0 < s.length) : s ≠ "" := by
  intro he
  rw [he] at h
  simp at h

theorem prefixed_ne_empty (a t b : String) (h : 0 < a.length) : a ++ t ++ b ≠ "" := by
  apply ne_empty_of_length_pos
  rw [String.length_append, String.length_append]
  omega

theorem generate_with_ollama_ne_empty (o : Except Unit String) :
    generate_with_ollama o ≠ "" := by
  cases o with
  | error e =>
    show ollamaErrorMsg ≠ ""
    decide
  | ok raw =>
    show (if pyStrip raw = "" then ollamaEmptyMsg else pyStrip raw) ≠ ""
    split
    · decide
    · assumption

theorem generate_with_neural_engine_ne_empty (c : Bool) (o : NEOutcome) (p : String) :
    generate_with_neural_engine c o p ≠ "" := by
  unfold generate_with_neural_engine
  split
  · decide
  · cases o with
    | raised =>
      show neErrorMsg ≠ ""
      decide
    | decodeFailed t => exact prefixed_ne_empty "Neural Engine処理完了（" t "ms）" (by decide)
    | decoded text t =>
      show (if neCleanDecoded text = "" || (neCleanDecoded text).length < 2 then _ else
        neCleanDecoded text) ≠ ""
      split
      · split
        · decide
        · split
          · decide
          · split
            · decide
            · exact prefixed_ne_empty "Neural Engineで高速処理しました（" t "ms）" (by decide)
      · rename_i hcond
        intro he
        exact hcond (by simp [he])

theorem lexicalFallback_ne_empty (prompt seed : String) :
    lexicalFallback prompt seed ≠ "" := by
  unfold lexicalFallback
  dsimp only
  split
  · decide
  · assumption

theorem generate_with_model_ne_empty (p : String) (o : ModelGenOutcome) :
    generate_with_model p o ≠ "" := by
  cases o with
  | loadTimeout =>
    show timeoutMsg ≠ ""
    decide
  | raised =>
    show errorOccurredMsg ≠ ""
    decide
  | generated newText fullText =>
    show (if cleanNewTokens newText = "" then
        if altBotExtract newText fullText = "" ||
            pyContains (altBotExtract newText fullText) "User:" ||
            pyContains (altBotExtract newText fullText) "I have no idea" then
          lexicalFallback p (altBotExtract newText fullText)
        else altBotExtract newText fullText
      else cleanNewTokens newText) ≠ ""
    split
    · split
      · exact lexicalFallback_ne_empty _ _
      · rename_i hcond
        intro he
        exact hcond (by simp [he])
    · assumption

theorem computeResponse_ne_empty (sess : ChatSession) (message : String) (o : TierOracle) :
    computeResponse sess message o ≠ "" := by
  unfold computeResponse
  split
  · exact generate_with_ollama_ne_empty _
  · split
    · split
      · exact generate_with_neural_engine_ne_empty _ _ _
      · split
        · exact generate_with_neural_engine_ne_empty _ _ _
        · exact generate_with_model_ne_empty _ _
    · exact generate_with_model_ne_empty _ _

/-- Claim C2: for every chat-generation turn against an existing session and
every combination of external tier outcomes — the Ollama call raising, the
accelerated load raising, the Core ML decode raising, the standard tier timing
out or raising, or its cleaned output coming out empty — the dispatcher
returns ok (no exception) carrying a non-empty response text, and that text is
persisted as the final assistant message whose fresh id is the one returned to
the caller. -/
theorem generate_response_c2 (db : AppDB) (sid : Nat) (message : String)
    (o : TierOracle) (now : Nat) (sess : ChatSession)
    (h : lookupRec db.sessions sid = some sess) :
    ∃ text,
      (generate_response db sid message o now).2 =
        Except.ok { message_id := db.next_message_id + 1, response := text,
                    session_id := sid } ∧
      text ≠ "" ∧
      (generate_response db sid message o now).1.messages.getLast? =
        some (db.next_message_id + 1,
          { session_id := sid, role := ChatMessageRole.assistant, content := text,
            timestamp := now }) := by
  refine ⟨computeResponse sess message o, ?_, computeResponse_ne_empty sess message o, ?_⟩
  · unfold generate_response
    rw [h]
    rfl
  · unfold generate_response
    rw [h]
    dsimp only [insertChatMessage]
    exact List.getLast?_concat _

/-- Claim C10: a turn against a missing session returns the not-found error
with the store untouched (no message of either role persisted); a turn against
an existing session appends exactly one USER message carrying the request text
followed by exactly one ASSISTANT message carrying the dispatcher outcome —
also when every generation path raises (the oracle covers those cases). -/
theorem generate_response_c10 (db : AppDB) (sid : Nat) (message : String)
    (o : TierOracle) (now : Nat) :
    (lookupRec db.sessions sid = none →
      generate_response db sid message o now =
        (db, Except.error ("Chat session " ++ toString sid ++ " not found"))) ∧
    (∀ sess, lookupRec db.sessions sid = some sess →
      (generate_response db sid message o now).1.messages =
        db.messages ++
          [(db.next_message_id,
            { session_id := sid, role := ChatMessageRole.user, content := message,
              timestamp := now }),
           (db.next_message_id + 1,
            { session_id := sid, role := ChatMessageRole.assistant,
              content := computeResponse sess message o, timestamp := now })]) := by
  constructor
  · intro hn
    unfold generate_response
    rw [hn]
  · intro sess hs
    unfold generate_response
    rw [hs]
    dsimp only [insertChatMessage]
    rw [List.append_assoc]
    rfl

def sessW2 : ChatSession :=
  { name := "s", job_id := some 1, model_name := none, model_path := some "/app/m" }

def dbW2 : AppDB := { emptyDB with sessions := [(1, sessW2)] }

/-- A turn in which the accelerated tier's load raises and the standard tier
generates an output that cleans to the empty string. -/
def oracleW : TierOracle :=
  { ollamaResult := Except.error (), neAvailable := true, neCached := false,
    neLoadOk := false, neOutcome := NEOutcome.raised,
    modelOutcome := ModelGenOutcome.generated (some "") "no marker" }

/-- Claim C2 witness: with the accelerated tier failing and the standard
tier's cleaned output empty, the turn still returns and persists a non-empty
text. -/
theorem generate_response_c2_witness :
    ∃ text,
      (generate_response dbW2 1 "hello" oracleW 0).2 =
        Except.ok { message_id := dbW2.next_message_id + 1, response := text,
                    session_id := 1 } ∧
      text ≠ "" ∧
      (generate_response dbW2 1 "hello" oracleW 0).1.messages.getLast? =
        some (dbW2.next_message_id + 1,
          { session_id := 1, role := ChatMessageRole.assistant, content := text,
            timestamp := 0 }) :=
  generate_response_c2 dbW2 1 "hello" oracleW 0 sessW2 rfl

/-- Claim C10 witness: the missing-session turn changes nothing, and an
existing-session turn appends exactly the user/assistant pair. -/
theorem generate_response_c10_witness :
    generate_response emptyDB 9 "hi" oracleW 0 =
      (emptyDB, Except.error ("Chat session " ++ toString 9 ++ " not found")) ∧
    (generate_response dbW2 1 "hi" oracleW 0).1.messages =
      dbW2.messages ++
        [(dbW2.next_message_id,
          { session_id := 1, role := ChatMessageRole.user, content := "hi",
            timestamp := 0 }),
         (dbW2.next_message_id + 1,
          { session_id := 1, role := ChatMessageRole.assistant,
            content := computeResponse sessW2 "hi" oracleW, timestamp := 0 })] :=
  ⟨(generate_response_c10 emptyDB 9 "hi" oracleW 0).1 rfl,
   (generate_response_c10 dbW2 1 "hi" oracleW 0).2 sessW2 rfl⟩
